import Mathlib

set_option maxHeartbeats 1000000

/-!
Shallow embedding of the MATER-and-TAF fetch-and-expand script
(src/main.py).  Timestamps are modelled as seconds (a Nat): the source's
datetime values are totally ordered, support adding one hour (3600 s) and
flooring to the hour (zeroing minutes, seconds and microseconds), which is
division-and-multiplication by 3600 here.  A JSON field that may be missing
is an Option; a missing or unparseable ISO timestamp is none.
-/

/-- A field value as delivered by the API: a bare scalar, an explicit null,
or a mapping that may carry a value key.  Mirrors the inputs accepted by the
val helpers at src/main.py lines 38-41 and 109-112. -/
inductive TagVal (α : Type) where
  | scalar : α → TagVal α
  | null : TagVal α
  | tagged : Option α → TagVal α
deriving DecidableEq

/-- The val helper (src/main.py lines 38-41, duplicated at 109-112): a
mapping yields its optional value entry, anything else passes through, with
null and an absent field both becoming none.  The outer Option models the
field being absent from the JSON object (dict.get returning None). -/
def val {α : Type} : Option (TagVal α) → Option α
  | none => none
  | some (TagVal.scalar a) => some a
  | some TagVal.null => none
  | some (TagVal.tagged v) => v

/-- The raw field of a METAR or a forecast segment: providers send a string,
a list of strings, or null (any non-string non-list value behaves like null
in the code, so one constructor stands for all of them). -/
inductive RawField where
  | str : String → RawField
  | strs : List String → RawField
  | null : RawField
deriving DecidableEq

/-- Raw-text normalization of make_taf_row, src/main.py lines 125-129: a
list is joined with single spaces, a string passes through, anything else
(absent field included) becomes the empty string. -/
def normRaw : Option RawField → String
  | some (RawField.strs xs) => String.intercalate " " xs
  | some (RawField.str s) => s
  | some RawField.null => ""
  | none => ""

/-- One cloud layer.  The altitude field models the string rendering of
c.get with empty-string default used at src/main.py lines 61-64 and
138-141 (an absent altitude is the empty string). -/
structure Cloud where
  ctype : String
  altitude : String
deriving DecidableEq

/-- Cloud concatenation: each layer's type immediately followed by its
altitude, layers joined with single spaces. -/
def cloudsStr (cs : List Cloud) : String :=
  String.intercalate " " (cs.map (fun c => c.ctype ++ c.altitude))

/-- Zero padding as performed by the format specifiers 03d and 02d at
src/main.py line 120 for nonnegative values. -/
def padZero (w n : Nat) : String :=
  let s := Nat.repr n
  String.mk (List.replicate (w - s.length) '0') ++ s

/-- The gust suffix of src/main.py lines 121-122: appended only when the
extracted gust is truthy, that is present and nonzero. -/
def gustStr : Option Nat → String
  | none => ""
  | some g => if g = 0 then "" else "G" ++ Nat.repr g

/-- Wind composition of src/main.py lines 118-123: empty unless both
direction and speed are present, otherwise 3-digit direction, 2-digit
speed, optional gust suffix and the KT unit. -/
def windStr : Option Nat → Option Nat → Option Nat → String
  | some d, some s, g => padZero 3 d ++ padZero 2 s ++ gustStr g ++ "KT"
  | _, _, _ => ""

/-- One entry of a TAF's forecast list (a forecast-change segment), with
the fields read by expand_taf_hourly and make_taf_row.  time_from and
time_to model the from and to entries of the segment's time object; none
means the entry is missing. -/
structure Segment where
  type : String
  time_from : Option Nat
  time_to : Option Nat
  wind_direction : Option (TagVal Nat)
  wind_speed : Option (TagVal Nat)
  wind_gust : Option (TagVal Nat)
  visibility : Option (TagVal Int)
  wx_codes : List String
  clouds : List Cloud
  raw : Option RawField
deriving DecidableEq

/-- A fetched TAF document: issue time (time.dt), overall validity window
(valid_time.from, valid_time.to) and the forecast list.  none models a
missing or unparseable timestamp field. -/
structure TafDoc where
  time_dt : Option Nat
  valid_time : Option (Nat × Nat)
  forecast : List Segment
deriving DecidableEq

/-- One output row of the TAF expansion (src/main.py lines 131-143).
forecast_time keeps the tick as a Nat; the source renders it with strftime,
which is injective on the hour-aligned ticks the expander produces. -/
structure TafRow where
  station : String
  forecast_time : Nat
  layer : String
  wind : String
  visibility : Option Int
  weather : String
  clouds : String
  raw : String
deriving DecidableEq

/-- make_taf_row, src/main.py lines 108-143. -/
def make_taf_row (station : String) (t : Nat) (e : Segment) (layer : String) : TafRow :=
  { station := station
    forecast_time := t
    layer := layer
    wind := windStr (val e.wind_direction) (val e.wind_speed) (val e.wind_gust)
    visibility := val e.visibility
    weather := String.intercalate " " e.wx_codes
    clouds := cloudsStr e.clouds
    raw := normRaw e.raw }

/-- A fetched METAR object with the fields read by parse_metar. -/
structure MetarObj where
  station : Option String
  temperature : Option (TagVal Int)
  dewpoint : Option (TagVal Int)
  wind_direction : Option (TagVal Nat)
  wind_speed : Option (TagVal Nat)
  wind_gust : Option (TagVal Nat)
  visibility : Option (TagVal Int)
  altimeter : Option (TagVal Int)
  wx_codes : List String
  clouds : List Cloud
  raw : Option RawField
deriving DecidableEq

/-- The flat METAR record built by parse_metar (src/main.py lines 46-66).
The raw field keeps the type RawField because the source stores the fetched
value unchanged there (defaulting to the empty string only when the field
is absent), without the list-joining normalization of make_taf_row. -/
structure MetarRow where
  timestamp : String
  airport : String
  icao : Option String
  temperature_c : Option Int
  dewpoint_c : Option Int
  wind_dir_deg : Option Nat
  wind_speed_kt : Option Nat
  wind_gust_kt : Option Nat
  visibility_m : Option Int
  pressure_hpa : Option Int
  weather : String
  clouds : String
  raw : RawField
deriving DecidableEq

/-- parse_metar, src/main.py lines 46-66.  nowIso stands for the rendered
current time datetime.now(JST).isoformat(). -/
def parse_metar (nowIso : String) (m : MetarObj) (name : String) : MetarRow :=
  { timestamp := nowIso
    airport := name
    icao := m.station
    temperature_c := val m.temperature
    dewpoint_c := val m.dewpoint
    wind_dir_deg := val m.wind_direction
    wind_speed_kt := val m.wind_speed
    wind_gust_kt := val m.wind_gust
    visibility_m := val m.visibility
    pressure_hpa := val m.altimeter
    weather := String.intercalate " " m.wx_codes
    clouds := cloudsStr m.clouds
    raw := m.raw.getD (RawField.str "") }

/-- Flooring a timestamp to the hour: start.replace zeroing minute, second
and microsecond, src/main.py line 81. -/
def floorHour (n : Nat) : Nat := n / 3600 * 3600

/-- The hour ticks visited by the while loop of src/main.py lines 82-104:
from t upward in steps of one hour while t is at most endT. -/
def hourTicksAux (endT t : Nat) : List Nat :=
  if h : t ≤ endT then t :: hourTicksAux endT (t + 3600) else []
termination_by endT + 1 - t
decreasing_by omega

/-- All hour ticks of one expansion: the floor of the window start through
the window end inclusive. -/
def hourTicks (startT endT : Nat) : List Nat := hourTicksAux endT (floorHour startT)

/-- Number of iterations the hour loop performs when started at t. -/
def hourCount (endT t : Nat) : Nat := if t ≤ endT then (endT - t) / 3600 + 1 else 0

/-- The base-or-supersede kinds of src/main.py line 89. -/
def isBaseKind (e : Segment) : Bool := e.type == "BASE" || e.type == "FM"

/-- The segment start as read inside the hour loop.  The default is never
reached by the expansion, which fails first when any segment lacks its
from entry (src/main.py line 87 raises there). -/
def fromD (e : Segment) : Nat := e.time_from.getD 0

/-- The test of src/main.py line 89: base kind and the inclusive interval
from the segment start to its end, defaulted to the window end (line 88),
contains t. -/
def baseMatch (endT t : Nat) (e : Segment) : Bool :=
  isBaseKind e && decide (fromD e ≤ t) && decide (t ≤ e.time_to.getD endT)

/-- The test of src/main.py lines 98-101: type TEMPO and the inclusive
interval contains t.  Unlike line 88, line 100 reads the to entry without
a default, so the default here is never reached: the expansion fails first
when a TEMPO segment lacks its to entry. -/
def tempoMatch (t : Nat) (e : Segment) : Bool :=
  e.type == "TEMPO" && decide (fromD e ≤ t) && decide (t ≤ e.time_to.getD 0)

/-- The base-selection loop of src/main.py lines 83-91, accumulator made
explicit: a matching segment replaces the current choice when its start is
at least the current choice's start (line 90 uses a non-strict compare, so
a later list entry wins a tie). -/
def selectBaseAux (endT t : Nat) : Option Segment → List Segment → Option Segment
  | acc, [] => acc
  | acc, e :: rest =>
    selectBaseAux endT t
      (if baseMatch endT t e then
        match acc with
        | none => some e
        | some b => if fromD b ≤ fromD e then some e else some b
      else acc) rest

/-- The base segment chosen for hour t, starting from no choice. -/
def selectBase (endT t : Nat) (fs : List Segment) : Option Segment :=
  selectBaseAux endT t none fs

/-- The TEMPO loop of src/main.py lines 96-102: one row per matching TEMPO
segment, in forecast-list order. -/
def tempoRowsAt (station : String) (t : Nat) (fs : List Segment) : List TafRow :=
  fs.filterMap (fun e =>
    if tempoMatch t e then some (make_taf_row station t e "TEMPO") else none)

/-- The rows appended for one hour t: the selected base row, if any,
followed by the TEMPO rows (src/main.py lines 93-102). -/
def hourRowsAt (station : String) (endT t : Nat) (fs : List Segment) : List TafRow :=
  (match selectBase endT t fs with
   | some e => [make_taf_row station t e "BASE"]
   | none => []) ++ tempoRowsAt station t fs

/-- The per-segment fields whose absence makes an iteration of the hour
loop raise: every segment needs its from entry (src/main.py line 87), and
a TEMPO segment additionally needs its to entry (line 100). -/
def segWellFormed (e : Segment) : Bool :=
  e.time_from.isSome && (e.type != "TEMPO" || e.time_to.isSome)

/-- expand_taf_hourly, src/main.py lines 74-106.  The source raises on a
missing or unparseable issue time (line 75), validity window (lines 76-77)
or per-segment time entry (lines 87 and 100) and then returns no rows at
all, which the Except models; segment parsing is hour-independent, so it
is checked once, and only when the hour loop runs at least one iteration
(with no ticks the forecast list is never read). -/
def expand_taf_hourly (station : String) (taf : TafDoc) : Except String (List TafRow) :=
  match taf.time_dt with
  | none => Except.error "unparseable issue time"
  | some _ =>
    match taf.valid_time with
    | none => Except.error "missing valid_time"
    | some se =>
      let ticks := hourTicks se.1 se.2
      if ticks.isEmpty then Except.ok []
      else if taf.forecast.all segWellFormed then
        Except.ok (ticks.flatMap (fun t => hourRowsAt station se.2 t taf.forecast))
      else Except.error "malformed segment"

/-- One cell of a CSV line: DictWriter looks the field name up in the row
mapping; the empty string stands for the default fill. -/
def renderCell (row : List (String × String)) (f : String) : String :=
  (row.lookup f).getD ""

/-- One CSV line for one row under the given field order. -/
def renderRow (fieldnames : List String) (row : List (String × String)) : String :=
  String.intercalate "," (fieldnames.map (renderCell row))

/-- write_csv, src/main.py lines 148-156, over an abstract file state:
none is a file that does not exist, some gives its lines.  Zero rows is a
no-op; otherwise the rows are appended after the existing content, with a
header line first exactly when the file did not exist. -/
def write_csv (file : Option (List String)) (rows : List (List (String × String)))
    (fieldnames : List String) : Option (List String) :=
  if rows.isEmpty then file
  else
    match file with
    | none => some (String.intercalate "," fieldnames :: rows.map (renderRow fieldnames))
    | some content => some (content ++ rows.map (renderRow fieldnames))

/-- The per-airport loop of main, src/main.py lines 165-176, over the fetch
results (an Except models a fetch that raised).  Each airport's METAR is
parsed in its own try block and its TAF in another: a failure in either
contributes nothing for that airport and that report kind but leaves every
other contribution intact. -/
def mainLoop (now : String) :
    List (String × Except String MetarObj × Except String TafDoc) →
      List MetarRow × List TafRow
  | [] => ([], [])
  | (name, mRes, tRes) :: rest =>
    let acc := mainLoop now rest
    let mRows : List MetarRow :=
      match mRes with
      | Except.ok m => [parse_metar now m name]
      | Except.error _ => []
    let tRows : List TafRow :=
      match tRes with
      | Except.ok taf =>
        match expand_taf_hourly name taf with
        | Except.ok rs => rs
        | Except.error _ => []
      | Except.error _ => []
    (mRows ++ acc.1, tRows ++ acc.2)

/-- The base-selection loop restricted to the segments that already passed
the match test: proof-side companion of selectBaseAux. -/
def pickLatest : Option Segment → List Segment → Option Segment
  | acc, [] => acc
  | none, e :: rest => pickLatest (some e) rest
  | some b, e :: rest => pickLatest (some (if fromD b ≤ fromD e then e else b)) rest

/-- Running maximum of the loop once a first candidate exists: keeps the
later entry when starts are tied. -/
def lastMax (b : Segment) : List Segment → Segment
  | [] => b
  | e :: rest => lastMax (if fromD b ≤ fromD e then e else b) rest

/-- A segment with every optional field absent, used as the base of the
concrete test fixtures below. -/
def seg0 : Segment :=
  { type := "", time_from := none, time_to := none, wind_direction := none,
    wind_speed := none, wind_gust := none, visibility := none,
    wx_codes := [], clouds := [], raw := none }

/-- A METAR object with every optional field absent. -/
def metar0 : MetarObj :=
  { station := none, temperature := none, dewpoint := none, wind_direction := none,
    wind_speed := none, wind_gust := none, visibility := none, altimeter := none,
    wx_codes := [], clouds := [], raw := none }

/-- Fixture: the initial BASE period of the spec's precedence example,
covering the first two hours of the window. -/
def exSegBase : Segment :=
  { seg0 with type := "BASE", time_from := some 0, time_to := some 7200 }

/-- Fixture: an FM change starting one hour in, overlapping exSegBase. -/
def exSegFM : Segment :=
  { seg0 with type := "FM", time_from := some 3600, time_to := some 10800 }

/-- Fixture: a segment carrying the spec's wind example 270 at 15 gusting
25. -/
def exSegWind : Segment :=
  { seg0 with
    type := "BASE"
    time_from := some 0
    time_to := some 3600
    wind_direction := some (TagVal.scalar 270)
    wind_speed := some (TagVal.scalar 15)
    wind_gust := some (TagVal.scalar 25) }

/-- Fixture: same wind as exSegWind but with no gust reported. -/
def exSegWindNoGust : Segment :=
  { seg0 with
    type := "BASE"
    time_from := some 0
    time_to := some 3600
    wind_direction := some (TagVal.scalar 270)
    wind_speed := some (TagVal.scalar 15) }

/-- Fixture: a BASE segment with a start and no end time. -/
def exSegOpenBase : Segment :=
  { seg0 with type := "BASE", time_from := some 0 }

/-- Fixture: a document whose only segment is the open-ended BASE. -/
def exDocOpenBase : TafDoc :=
  { time_dt := some 0, valid_time := some (0, 7200), forecast := [exSegOpenBase] }

/-- Fixture: first of two overlapping TEMPO segments. -/
def exSegTempoA : Segment :=
  { seg0 with type := "TEMPO", time_from := some 0, time_to := some 7200 }

/-- Fixture: second overlapping TEMPO segment, later in the list. -/
def exSegTempoB : Segment :=
  { seg0 with type := "TEMPO", time_from := some 3600, time_to := some 10800 }

/-- Fixture: a TEMPO segment with a start but no end time. -/
def exSegTempoNoEnd : Segment :=
  { seg0 with type := "TEMPO", time_from := some 0, time_to := none }

/-- Fixture: a document whose only segment is a TEMPO without an end. -/
def exDocTempoNoEnd : TafDoc :=
  { time_dt := some 0, valid_time := some (0, 7200), forecast := [exSegTempoNoEnd] }

/-- Fixture: a document missing its validity window. -/
def exDocNoValid : TafDoc :=
  { time_dt := some 0, valid_time := none, forecast := [] }

/-- Fixture: a document missing its issue time. -/
def exDocNoDt : TafDoc :=
  { time_dt := none, valid_time := some (0, 3600), forecast := [exSegBase] }

/-- Fixture: a base segment lacking its from entry. -/
def exSegNoFrom : Segment := { seg0 with type := "BASE", time_to := some 3600 }

/-- Fixture: a document whose only segment lacks its from entry. -/
def exDocNoFrom : TafDoc :=
  { time_dt := some 0, valid_time := some (0, 3600), forecast := [exSegNoFrom] }

/-- Fixture: a METAR whose raw field is an explicit null. -/
def exMetarNull : MetarObj := { metar0 with raw := some RawField.null }

/-- Fixture: a METAR whose raw field arrives as a list of tokens. -/
def exMetarList : MetarObj :=
  { metar0 with raw := some (RawField.strs ["INTER", "1200/1400", "27015KT"]) }

/-!  Lemmas about the hour loop. -/

theorem hourTicksAux_closed (endT t : Nat) :
    hourTicksAux endT t = (List.range (hourCount endT t)).map (fun i => t + 3600 * i) := by
  unfold hourTicksAux
  split
  case isTrue h =>
    rw [hourTicksAux_closed endT (t + 3600)]
    have hc : hourCount endT t = hourCount endT (t + 3600) + 1 := by
      unfold hourCount
      split
      case isTrue h1 =>
        split
        case isTrue h2 => omega
        case isFalse h2 => omega
      case isFalse h1 => omega
    rw [hc, List.range_succ_eq_map, List.map_cons, List.map_map]
    have hf : ((fun i => t + 3600 * i) ∘ Nat.succ) = (fun i => t + 3600 + 3600 * i) := by
      funext i
      simp only [Function.comp]
      omega
    rw [hf]
    norm_num
  case isFalse h =>
    have hc : hourCount endT t = 0 := by unfold hourCount; split <;> omega
    rw [hc]
    simp
termination_by endT + 1 - t
decreasing_by omega

theorem hourTicks_closed (s e : Nat) :
    hourTicks s e =
      (List.range (hourCount e (floorHour s))).map (fun i => floorHour s + 3600 * i) :=
  hourTicksAux_closed e (floorHour s)

theorem hourTicks_ne_nil (s e : Nat) (h : floorHour s ≤ e) : hourTicks s e ≠ [] := by
  rw [hourTicks_closed]
  have : hourCount e (floorHour s) = (e - floorHour s) / 3600 + 1 := by
    unfold hourCount; split <;> omega
  rw [this]
  simp [List.range_succ_eq_map]

theorem hourTicksAux_chain (endT t : Nat) :
    List.Chain' (fun a b => b = a + 3600) (hourTicksAux endT t) := by
  unfold hourTicksAux
  split
  case isTrue h =>
    rw [List.chain'_cons']
    refine ⟨?_, hourTicksAux_chain endT (t + 3600)⟩
    intro b hb
    unfold hourTicksAux at hb
    split at hb
    case isTrue h2 => simp at hb; omega
    case isFalse h2 => simp at hb
  case isFalse h => exact List.chain'_nil
termination_by endT + 1 - t
decreasing_by omega

theorem floorHour_le (s : Nat) : floorHour s ≤ s := by
  unfold floorHour; omega

theorem floorHour_mod (s : Nat) : floorHour s % 3600 = 0 := by
  unfold floorHour; omega

theorem hourTicks_mem (s e x : Nat) :
    x ∈ hourTicks s e ↔ x % 3600 = 0 ∧ floorHour s ≤ x ∧ x ≤ e := by
  rw [hourTicks_closed]
  simp only [List.mem_map, List.mem_range]
  constructor
  · rintro ⟨i, hi, rfl⟩
    unfold hourCount at hi
    have hm := floorHour_mod s
    split at hi <;> omega
  · rintro ⟨hx, hlo, hhi⟩
    refine ⟨(x - floorHour s) / 3600, ?_, ?_⟩
    · unfold hourCount
      have hm := floorHour_mod s
      split <;> omega
    · have hm := floorHour_mod s
      omega

/-!  Lemmas about the base-selection loop. -/

theorem selectBaseAux_eq_pickLatest (endT t : Nat) (fs : List Segment) :
    ∀ acc, selectBaseAux endT t acc fs = pickLatest acc (fs.filter (baseMatch endT t)) := by
  induction fs with
  | nil =>
    intro acc
    cases acc <;> rfl
  | cons e rest ih =>
    intro acc
    by_cases hm : baseMatch endT t e
    · rw [List.filter_cons_of_pos hm]
      unfold selectBaseAux
      rw [if_pos hm]
      cases acc with
      | none => exact ih (some e)
      | some b =>
        show selectBaseAux endT t (if fromD b ≤ fromD e then some e else some b) rest =
          pickLatest (some (if fromD b ≤ fromD e then e else b))
            (List.filter (baseMatch endT t) rest)
        rw [ih]
        congr 1
        by_cases hle : fromD b ≤ fromD e
        · rw [if_pos hle, if_pos hle]
        · rw [if_neg hle, if_neg hle]
    · rw [List.filter_cons_of_neg hm]
      unfold selectBaseAux
      rw [if_neg hm]
      exact ih acc

theorem pickLatest_some (l : List Segment) :
    ∀ b, pickLatest (some b) l = some (lastMax b l) := by
  induction l with
  | nil => intro b; rfl
  | cons e rest ih =>
    intro b
    unfold pickLatest lastMax
    exact ih _

theorem lastMax_mem (l : List Segment) : ∀ b, lastMax b l ∈ b :: l := by
  induction l with
  | nil => intro b; simp [lastMax]
  | cons e rest ih =>
    intro b
    unfold lastMax
    by_cases hle : fromD b ≤ fromD e
    · rw [if_pos hle]
      have := ih e
      simp only [List.mem_cons] at this ⊢
      tauto
    · rw [if_neg hle]
      have := ih b
      simp only [List.mem_cons] at this ⊢
      tauto

theorem lastMax_ge (l : List Segment) :
    ∀ b, fromD b ≤ fromD (lastMax b l) ∧ ∀ x ∈ l, fromD x ≤ fromD (lastMax b l) := by
  induction l with
  | nil => intro b; simp [lastMax]
  | cons e rest ih =>
    intro b
    unfold lastMax
    by_cases hle : fromD b ≤ fromD e
    · rw [if_pos hle]
      obtain ⟨h1, h2⟩ := ih e
      refine ⟨le_trans hle h1, ?_⟩
      intro x hx
      rcases List.mem_cons.mp hx with hx | hx
      · subst hx; exact h1
      · exact h2 x hx
    · rw [if_neg hle]
      obtain ⟨h1, h2⟩ := ih b
      refine ⟨h1, ?_⟩
      intro x hx
      rcases List.mem_cons.mp hx with hx | hx
      · subst hx; omega
      · exact h2 x hx

theorem lastMax_split (l : List Segment) :
    ∀ b, ∃ p q, b :: l = p ++ lastMax b l :: q ∧
      ∀ x ∈ q, fromD x < fromD (lastMax b l) := by
  induction l with
  | nil =>
    intro b
    exact ⟨[], [], rfl, by simp⟩
  | cons e rest ih =>
    intro b
    unfold lastMax
    by_cases hle : fromD b ≤ fromD e
    · rw [if_pos hle]
      obtain ⟨p, q, hpq, hq⟩ := ih e
      exact ⟨b :: p, q, by rw [List.cons_append, ← hpq], hq⟩
    · rw [if_neg hle]
      obtain ⟨p, q, hpq, hq⟩ := ih b
      cases p with
      | nil =>
        simp only [List.nil_append] at hpq
        have hb : lastMax b rest = b := (List.cons.injEq _ _ _ _).mp hpq |>.1.symm
        have hq' : q = rest := (List.cons.injEq _ _ _ _).mp hpq |>.2.symm
        refine ⟨[], e :: rest, by simp [hb], ?_⟩
        intro x hx
        rcases List.mem_cons.mp hx with hx | hx
        · subst hx; rw [hb]; omega
        · rw [hb]
          have := hq x (by rw [hq']; exact hx)
          rw [hb] at this
          exact this
      | cons p0 p1 =>
        simp only [List.cons_append] at hpq
        have hb : p0 = b := ((List.cons.injEq _ _ _ _).mp hpq).1.symm
        have hrest : rest = p1 ++ lastMax b rest :: q := ((List.cons.injEq _ _ _ _).mp hpq).2
        refine ⟨b :: e :: p1, q, ?_, hq⟩
        rw [List.cons_append, List.cons_append, ← hrest]

theorem selectBase_none_iff (endT t : Nat) (fs : List Segment) :
    selectBase endT t fs = none ↔ fs.filter (baseMatch endT t) = [] := by
  unfold selectBase
  rw [selectBaseAux_eq_pickLatest]
  cases hL : fs.filter (baseMatch endT t) with
  | nil => simp [pickLatest]
  | cons a l =>
    show pickLatest (some a) l = none ↔ a :: l = []
    rw [pickLatest_some]
    simp

theorem selectBase_some_spec (endT t : Nat) (fs : List Segment) (e : Segment)
    (h : selectBase endT t fs = some e) :
    baseMatch endT t e = true ∧ e ∈ fs ∧
      (∀ x ∈ fs, baseMatch endT t x = true → fromD x ≤ fromD e) ∧
      ∃ p q, fs.filter (baseMatch endT t) = p ++ e :: q ∧
        ∀ x ∈ q, fromD x < fromD e := by
  unfold selectBase at h
  rw [selectBaseAux_eq_pickLatest] at h
  cases hL : fs.filter (baseMatch endT t) with
  | nil => rw [hL] at h; simp [pickLatest] at h
  | cons a l =>
    rw [hL] at h
    have h' : pickLatest (some a) l = some e := h
    rw [pickLatest_some] at h'
    have he : e = lastMax a l := by
      cases h'
      rfl
    have hmem : e ∈ a :: l := he ▸ lastMax_mem l a
    have hmemL : e ∈ fs.filter (baseMatch endT t) := by rw [hL]; exact hmem
    have hfil := List.mem_filter.mp hmemL
    refine ⟨hfil.2, hfil.1, ?_, ?_⟩
    · intro x hx hbx
      have hxL : x ∈ fs.filter (baseMatch endT t) := List.mem_filter.mpr ⟨hx, hbx⟩
      rw [hL] at hxL
      obtain ⟨hga, hgl⟩ := lastMax_ge l a
      rcases List.mem_cons.mp hxL with hx' | hx'
      · subst hx'; rw [he]; exact hga
      · rw [he]; exact hgl x hx'
    · obtain ⟨p, q, hpq, hq⟩ := lastMax_split l a
      refine ⟨p, q, ?_, ?_⟩
      · rw [he]
        exact hpq
      · intro x hx
        rw [he]
        exact hq x hx

theorem tempoRowsAt_eq (station : String) (t : Nat) (fs : List Segment) :
    tempoRowsAt station t fs =
      (fs.filter (tempoMatch t)).map (fun e => make_taf_row station t e "TEMPO") := by
  induction fs with
  | nil => rfl
  | cons e rest ih =>
    unfold tempoRowsAt at ih ⊢
    by_cases hm : tempoMatch t e
    · rw [List.filter_cons_of_pos hm, List.map_cons, ← ih]
      simp [List.filterMap_cons, hm]
    · rw [List.filter_cons_of_neg hm, ← ih]
      simp [List.filterMap_cons, hm]

theorem tempoRowsAt_layer (station : String) (t : Nat) (fs : List Segment) :
    ∀ r ∈ tempoRowsAt station t fs, r.layer = "TEMPO" := by
  intro r hr
  rw [tempoRowsAt_eq] at hr
  obtain ⟨e, _, rfl⟩ := List.mem_map.mp hr
  rfl

theorem hourRowsAt_base_count (station : String) (endT t : Nat) (fs : List Segment) :
    (hourRowsAt station endT t fs).countP (fun r => r.layer == "BASE") ≤ 1 := by
  unfold hourRowsAt
  rw [List.countP_append]
  have h2 : (tempoRowsAt station t fs).countP (fun r => r.layer == "BASE") = 0 := by
    rw [List.countP_eq_zero]
    intro r hr
    rw [tempoRowsAt_layer station t fs r hr]
    decide
  rw [h2]
  cases hsel : selectBase endT t fs with
  | none => simp
  | some e =>
    simp only [List.countP_cons, List.countP_nil]
    split <;> omega

/-!  Lemmas about the whole expansion. -/

theorem expand_error_no_dt (station : String) (taf : TafDoc)
    (h1 : taf.time_dt = none) :
    expand_taf_hourly station taf = Except.error "unparseable issue time" := by
  cases taf with
  | mk dt vt fc =>
    simp only at h1
    subst h1
    rfl

theorem expand_error_no_valid (station : String) (taf : TafDoc)
    (h2 : taf.valid_time = none) :
    ∃ msg, expand_taf_hourly station taf = Except.error msg := by
  cases taf with
  | mk dt vt fc =>
    simp only at h2
    subst h2
    cases dt with
    | none => exact ⟨"unparseable issue time", rfl⟩
    | some d => exact ⟨"missing valid_time", rfl⟩

theorem expand_error_of_bad_seg (station : String) (taf : TafDoc) (d s e : Nat)
    (h1 : taf.time_dt = some d) (h2 : taf.valid_time = some (s, e))
    (h3 : floorHour s ≤ e) (h4 : taf.forecast.all segWellFormed = false) :
    expand_taf_hourly station taf = Except.error "malformed segment" := by
  obtain ⟨x, xs, hxs⟩ := List.exists_cons_of_ne_nil (hourTicks_ne_nil s e h3)
  cases taf with
  | mk dt vt fc =>
    simp only at h1 h2 h4
    subst h1
    subst h2
    show (if (hourTicks s e).isEmpty then Except.ok [] else
      if fc.all segWellFormed then
        Except.ok ((hourTicks s e).flatMap (fun t => hourRowsAt station e t fc))
      else Except.error "malformed segment") = Except.error "malformed segment"
    rw [hxs, h4]
    rfl

theorem expand_eq_ok (station : String) (taf : TafDoc) (d s e : Nat)
    (h1 : taf.time_dt = some d) (h2 : taf.valid_time = some (s, e))
    (h4 : taf.forecast.all segWellFormed = true) :
    expand_taf_hourly station taf =
      Except.ok ((hourTicks s e).flatMap (fun t => hourRowsAt station e t taf.forecast)) := by
  cases taf with
  | mk dt vt fc =>
    simp only at h1 h2 h4 ⊢
    subst h1
    subst h2
    show (if (hourTicks s e).isEmpty then Except.ok [] else
      if fc.all segWellFormed then
        Except.ok ((hourTicks s e).flatMap (fun t => hourRowsAt station e t fc))
      else Except.error "malformed segment") =
      Except.ok ((hourTicks s e).flatMap (fun t => hourRowsAt station e t fc))
    cases hE : (hourTicks s e).isEmpty with
    | true =>
      have : hourTicks s e = [] := List.isEmpty_iff.mp hE
      rw [if_pos rfl]
      rw [this]
      rfl
    | false =>
      rw [if_neg (by simp [hE]), if_pos h4]

theorem hourRowsAt_layer (station : String) (endT t : Nat) (fs : List Segment) :
    ∀ r ∈ hourRowsAt station endT t fs, r.layer = "BASE" ∨ r.layer = "TEMPO" := by
  intro r hr
  unfold hourRowsAt at hr
  rcases List.mem_append.mp hr with hl | hl
  · cases hsel : selectBase endT t fs with
    | none => rw [hsel] at hl; simp at hl
    | some e =>
      rw [hsel] at hl
      simp only [List.mem_singleton] at hl
      subst hl
      exact Or.inl rfl
  · exact Or.inr (tempoRowsAt_layer station t fs r hl)

theorem baseMatch_isBaseKind (endT t : Nat) (e : Segment)
    (h : baseMatch endT t e = true) : isBaseKind e = true := by
  unfold baseMatch at h
  simp only [Bool.and_eq_true] at h
  exact h.1.1

theorem expand_ok_inv (station : String) (taf : TafDoc) (rows : List TafRow)
    (h : expand_taf_hourly station taf = Except.ok rows) :
    rows = [] ∨ ∃ s e, taf.valid_time = some (s, e) ∧
      rows = (hourTicks s e).flatMap (fun t => hourRowsAt station e t taf.forecast) := by
  cases taf with
  | mk dt vt fc =>
    cases dt with
    | none => exact Except.noConfusion h
    | some d =>
      cases vt with
      | none => exact Except.noConfusion h
      | some se =>
        have h' : (if (hourTicks se.1 se.2).isEmpty then Except.ok [] else
            if fc.all segWellFormed then
              Except.ok ((hourTicks se.1 se.2).flatMap (fun t => hourRowsAt station se.2 t fc))
            else Except.error "malformed segment") = Except.ok rows := h
        split at h'
        · left
          injection h' with h2
          exact h2.symm
        · split at h'
          · right
            injection h' with h2
            exact ⟨se.1, se.2, rfl, h2.symm⟩
          · exact Except.noConfusion h'

/-!  Claim theorems. -/

/-- C1: for every hour t, among the BASE and FM segments whose inclusive
interval (end defaulted to the window end) contains t, the expander selects
a covering segment whose valid_from is the latest; a tie between equal
valid_from values is decided by forecast-list position, the loop's
non-strict comparison letting the later (most recently superseding) entry
win, so list order fixes the winner deterministically; it finds none
exactly when no base-kind segment covers t, at most one base row is emitted
for t, and none at all when nothing covers t. -/
theorem C1_base_selection (station : String) (endT t : Nat) (fs : List Segment) :
    (selectBase endT t fs = none ↔ fs.filter (baseMatch endT t) = []) ∧
    (∀ e, selectBase endT t fs = some e →
      baseMatch endT t e = true ∧ e ∈ fs ∧
        (∀ x ∈ fs, baseMatch endT t x = true → fromD x ≤ fromD e) ∧
        ∃ p q, fs.filter (baseMatch endT t) = p ++ e :: q ∧
          ∀ x ∈ q, fromD x < fromD e) ∧
    (hourRowsAt station endT t fs).countP (fun r => r.layer == "BASE") ≤ 1 ∧
    ((∀ x ∈ fs, baseMatch endT t x = false) →
      hourRowsAt station endT t fs = tempoRowsAt station t fs) := by
  refine ⟨selectBase_none_iff endT t fs, ?_, hourRowsAt_base_count station endT t fs, ?_⟩
  · intro e he
    obtain ⟨h1, h2, h3, h4⟩ := selectBase_some_spec endT t fs e he
    exact ⟨h1, h2, h3, h4⟩
  · intro hnone
    have hfil : fs.filter (baseMatch endT t) = [] := by
      rw [List.filter_eq_nil_iff]
      intro a ha
      rw [hnone a ha]
      decide
    have hsel : selectBase endT t fs = none := (selectBase_none_iff endT t fs).mpr hfil
    unfold hourRowsAt
    rw [hsel]
    exact List.nil_append _

/-- C1 witness: in the spec's precedence example the FM change starting at
hour one is selected for that hour over the BASE period that also covers
it, and it indeed passes the match test. -/
theorem C1_base_selection_witness : baseMatch 10800 3600 exSegFM = true :=
  ((C1_base_selection "NRT" 10800 3600 [exSegBase, exSegFM]).2.1 exSegFM rfl).1

/-- C2 counterexample: the claim fails for TEMPO segments.  A document
whose TEMPO segment has a start but no end time makes the whole expansion
fail (src/main.py line 100 reads the end without a default), instead of
being treated as extending to the window end and producing rows. -/
theorem C2_counterexample :
    exSegTempoNoEnd.time_from = some 0 ∧ exSegTempoNoEnd.time_to = none ∧
      exDocTempoNoEnd.forecast = [exSegTempoNoEnd] ∧
      expand_taf_hourly "NRT" exDocTempoNoEnd = Except.error "malformed segment" :=
  ⟨rfl, rfl, rfl,
    expand_error_of_bad_seg "NRT" exDocTempoNoEnd 0 0 7200 rfl rfl (by decide) (by decide)⟩

/-- C2 amended: only BASE and FM segments missing an explicit end are
treated as extending to the window end (their match interval becomes
start..windowEnd) and the expansion still succeeds for them, while a TEMPO
segment missing its end makes the whole expansion fail. -/
theorem C2_open_end (station : String) (taf : TafDoc) (d s e : Nat) :
    (∀ seg t f, isBaseKind seg = true → seg.time_from = some f → seg.time_to = none →
      (baseMatch e t seg = true ↔ f ≤ t ∧ t ≤ e)) ∧
    (taf.time_dt = some d → taf.valid_time = some (s, e) →
      taf.forecast.all segWellFormed = true →
      expand_taf_hourly station taf =
        Except.ok ((hourTicks s e).flatMap (fun t => hourRowsAt station e t taf.forecast))) ∧
    (taf.time_dt = some d → taf.valid_time = some (s, e) → floorHour s ≤ e →
      (∃ seg ∈ taf.forecast, seg.type = "TEMPO" ∧ seg.time_to = none) →
      expand_taf_hourly station taf = Except.error "malformed segment") := by
  refine ⟨?_, expand_eq_ok station taf d s e, ?_⟩
  · intro seg t f hk hf ht
    unfold baseMatch fromD
    rw [hk, hf, ht]
    simp
  · intro h1 h2 h3 hseg
    obtain ⟨seg, hmem, hty, hto⟩ := hseg
    have hbad : segWellFormed seg = false := by
      unfold segWellFormed
      rw [hto, hty]
      simp
    have hall : taf.forecast.all segWellFormed = false := by
      rw [Bool.eq_false_iff]
      intro hcon
      have := (List.all_eq_true.mp hcon) seg hmem
      rw [hbad] at this
      exact Bool.false_ne_true this
    exact expand_error_of_bad_seg station taf d s e h1 h2 h3 hall

/-- C2 amended witness: the open-ended BASE segment covers hour one of its
window, and the document holding only that segment expands successfully;
the TEMPO document without an end fails. -/
theorem C2_open_end_witness :
    (baseMatch 7200 3600 exSegOpenBase = true ↔ 0 ≤ 3600 ∧ 3600 ≤ 7200) ∧
      expand_taf_hourly "NRT" exDocOpenBase =
        Except.ok ((hourTicks 0 7200).flatMap
          (fun t => hourRowsAt "NRT" 7200 t exDocOpenBase.forecast)) :=
  ⟨(C2_open_end "NRT" exDocOpenBase 0 0 7200).1 exSegOpenBase 3600 0 rfl rfl rfl,
    (C2_open_end "NRT" exDocOpenBase 0 0 7200).2.1 rfl rfl (by decide)⟩

/-- C3: for every hour t the TEMPO rows are exactly one row per TEMPO
segment whose inclusive interval contains t, all matches in forecast-list
order; and the cluster for t is a base-row block (empty or the single
selected base row, every row in it labelled BASE) followed by the TEMPO
rows. -/
theorem C3_tempo_rows (station : String) (endT t : Nat) (fs : List Segment) :
    tempoRowsAt station t fs =
      (fs.filter (tempoMatch t)).map (fun e => make_taf_row station t e "TEMPO") ∧
    (∀ r ∈ tempoRowsAt station t fs, r.layer = "TEMPO") ∧
    ∃ bs, hourRowsAt station endT t fs = bs ++ tempoRowsAt station t fs ∧
      (∀ r ∈ bs, r.layer = "BASE") ∧
      (bs = [] ∨ ∃ e, selectBase endT t fs = some e ∧
        bs = [make_taf_row station t e "BASE"]) := by
  refine ⟨tempoRowsAt_eq station t fs, tempoRowsAt_layer station t fs, ?_⟩
  cases hsel : selectBase endT t fs with
  | none =>
    refine ⟨[], ?_, by simp, Or.inl rfl⟩
    unfold hourRowsAt
    rw [hsel]
  | some e =>
    refine ⟨[make_taf_row station t e "BASE"], ?_, ?_, Or.inr ⟨e, rfl, rfl⟩⟩
    · unfold hourRowsAt
      rw [hsel]
    · intro r hr
      simp only [List.mem_singleton] at hr
      subst hr
      rfl

/-- C3 witness: with two overlapping TEMPO segments both covering hour one,
the expansion emits exactly the two TEMPO rows for that hour, in source
order, and each carries the TEMPO label. -/
theorem C3_tempo_rows_witness :
    tempoRowsAt "NRT" 3600 [exSegTempoA, exSegTempoB] =
      ([exSegTempoA, exSegTempoB].filter (tempoMatch 3600)).map
        (fun e => make_taf_row "NRT" 3600 e "TEMPO") ∧
      (make_taf_row "NRT" 3600 exSegTempoA "TEMPO").layer = "TEMPO" :=
  ⟨(C3_tempo_rows "NRT" 10800 3600 [exSegTempoA, exSegTempoB]).1,
    (C3_tempo_rows "NRT" 10800 3600 [exSegTempoA, exSegTempoB]).2.1
      (make_taf_row "NRT" 3600 exSegTempoA "TEMPO") (by decide)⟩

/-- C4: the expander's hour loop runs over exactly the hour grid from the
hour-floor of the window start (minutes, seconds and sub-seconds zeroed,
possibly before the published start) through the window end inclusive, in
steps of exactly one hour; with an hour-aligned start and a three-hour
window that is exactly the four ticks T0, T0+1h, T0+2h, T0+3h. -/
theorem C4_hour_grid (s e : Nat) :
    (floorHour s ≤ s ∧ floorHour s % 3600 = 0) ∧
    (floorHour s ≤ e →
      hourTicks s e =
        (List.range ((e - floorHour s) / 3600 + 1)).map (fun i => floorHour s + 3600 * i)) ∧
    (e < floorHour s → hourTicks s e = []) ∧
    (∀ x, x ∈ hourTicks s e ↔ x % 3600 = 0 ∧ floorHour s ≤ x ∧ x ≤ e) ∧
    List.Chain' (fun a b => b = a + 3600) (hourTicks s e) ∧
    (s % 3600 = 0 → hourTicks s (s + 3 * 3600) = [s, s + 3600, s + 2 * 3600, s + 3 * 3600]) := by
  refine ⟨⟨floorHour_le s, floorHour_mod s⟩, ?_, ?_, hourTicks_mem s e, hourTicksAux_chain e (floorHour s), ?_⟩
  · intro h
    rw [hourTicks_closed]
    have : hourCount e (floorHour s) = (e - floorHour s) / 3600 + 1 := by
      unfold hourCount
      rw [if_pos h]
    rw [this]
  · intro h
    rw [hourTicks_closed]
    have : hourCount e (floorHour s) = 0 := by
      unfold hourCount
      rw [if_neg (by omega)]
    rw [this]
    rfl
  · intro hs
    have hfl : floorHour s = s := by unfold floorHour; omega
    rw [hourTicks_closed]
    have hcnt : hourCount (s + 3 * 3600) (floorHour s) = 4 := by
      unfold hourCount
      rw [hfl, if_pos (by omega)]
      omega
    rw [hcnt, hfl]
    have h4 : List.range 4 = [0, 1, 2, 3] := rfl
    rw [h4]
    simp only [List.map_cons, List.map_nil]
    norm_num

/-- C4 witness: the four-tick instance at the hour-aligned start 7200. -/
theorem C4_hour_grid_witness :
    hourTicks 7200 (7200 + 3 * 3600) = [7200, 7200 + 3600, 7200 + 2 * 3600, 7200 + 3 * 3600] :=
  (C4_hour_grid 7200 18000).2.2.2.2.2 (by decide)

/-- C5 counterexample: raw-text normalization is not applied uniformly.
parse_metar stores the fetched raw value unchanged, so a list stays a list
instead of being joined into one string, and an explicit null stays null
instead of becoming the empty string, contradicting the claimed uniform
rule. -/
theorem C5_counterexample :
    (parse_metar "t0" exMetarList "NRT").raw =
        RawField.strs ["INTER", "1200/1400", "27015KT"] ∧
      (parse_metar "t0" exMetarList "NRT").raw ≠
        RawField.str "INTER 1200/1400 27015KT" ∧
      (parse_metar "t0" exMetarNull "NRT").raw = RawField.null ∧
      (parse_metar "t0" exMetarNull "NRT").raw ≠ RawField.str "" := by
  exact ⟨rfl, by decide, rfl, by decide⟩

/-- C5 amended: the join-list, keep-string, else-empty rule is applied by
make_taf_row only; parse_metar passes the fetched raw value through
unchanged and substitutes the empty string only when the field is absent
altogether. -/
theorem C5_raw_normalization (station nowIso name layer : String) (t : Nat)
    (e : Segment) (m : MetarObj) :
    (make_taf_row station t e layer).raw = normRaw e.raw ∧
    (∀ xs, normRaw (some (RawField.strs xs)) = String.intercalate " " xs) ∧
    (∀ s, normRaw (some (RawField.str s)) = s) ∧
    normRaw (some RawField.null) = "" ∧
    normRaw none = "" ∧
    (parse_metar nowIso m name).raw = m.raw.getD (RawField.str "") :=
  ⟨rfl, fun _ => rfl, fun _ => rfl, rfl, rfl, rfl⟩

/-- C6: the composed wind string is the zero-padded 3-digit direction, the
zero-padded 2-digit speed, a G-prefixed unpadded gust only when the gust is
present and nonzero, and the KT suffix, whenever both direction and speed
are present after extraction; it is the empty string, never a partial one,
whenever direction or speed is missing. -/
theorem C6_wind (station layer : String) (t : Nat) (e : Segment) :
    (make_taf_row station t e layer).wind =
      windStr (val e.wind_direction) (val e.wind_speed) (val e.wind_gust) ∧
    (val e.wind_direction = none ∨ val e.wind_speed = none →
      (make_taf_row station t e layer).wind = "") ∧
    (∀ d s, val e.wind_direction = some d → val e.wind_speed = some s →
      (make_taf_row station t e layer).wind =
        padZero 3 d ++ padZero 2 s ++ gustStr (val e.wind_gust) ++ "KT") ∧
    (∀ g, gustStr (some g) = if g = 0 then "" else "G" ++ Nat.repr g) ∧
    gustStr none = "" := by
  refine ⟨rfl, ?_, ?_, fun _ => rfl, rfl⟩
  · intro h
    show windStr (val e.wind_direction) (val e.wind_speed) (val e.wind_gust) = ""
    rcases h with h | h
    · rw [h]
      cases val e.wind_speed <;> rfl
    · rw [h]
      cases val e.wind_direction <;> rfl
  · intro d s hd hs
    show windStr (val e.wind_direction) (val e.wind_speed) (val e.wind_gust) =
      padZero 3 d ++ padZero 2 s ++ gustStr (val e.wind_gust) ++ "KT"
    rw [hd, hs]
    rfl

/-- C6 witness: the spec's three wind examples, 270 at 15 gusting 25, the
same without gust, and a segment with no wind speed at all. -/
theorem C6_wind_witness :
    (make_taf_row "NRT" 0 exSegWind "BASE").wind = "27015G25KT" ∧
      (make_taf_row "NRT" 0 exSegWindNoGust "BASE").wind = "27015KT" ∧
      (make_taf_row "NRT" 0 exSegBase "BASE").wind = "" :=
  ⟨((C6_wind "NRT" "BASE" 0 exSegWind).2.2.1 270 15 rfl rfl).trans (by decide),
    ((C6_wind "NRT" "BASE" 0 exSegWindNoGust).2.2.1 270 15 rfl rfl).trans (by decide),
    (C6_wind "NRT" "BASE" 0 exSegBase).2.1 (Or.inl rfl)⟩

/-- C7: a document lacking its validity window, or (with a sane window
whose start is at most its end) containing a segment lacking its required
from entry, makes the whole expansion fail with an error and contribute
zero rows, while the same airport's METAR and every later airport's rows
are produced unchanged. -/
theorem C7_malformed_isolated (now name : String) (mRes : Except String MetarObj)
    (taf : TafDoc)
    (rest : List (String × Except String MetarObj × Except String TafDoc))
    (h : taf.valid_time = none ∨
      ∃ s e, taf.valid_time = some (s, e) ∧ s ≤ e ∧
        ∃ seg ∈ taf.forecast, seg.time_from = none) :
    (∃ msg, expand_taf_hourly name taf = Except.error msg) ∧
    (mainLoop now ((name, mRes, Except.ok taf) :: rest)).2 = (mainLoop now rest).2 ∧
    (mainLoop now ((name, mRes, Except.ok taf) :: rest)).1 =
      (match mRes with
       | Except.ok m => [parse_metar now m name]
       | Except.error _ => []) ++ (mainLoop now rest).1 := by
  have herr : ∃ msg, expand_taf_hourly name taf = Except.error msg := by
    rcases h with h | ⟨s, e, hvt, hse, seg, hmem, hfrom⟩
    · exact expand_error_no_valid name taf h
    · cases hdt : taf.time_dt with
      | none => exact ⟨"unparseable issue time", expand_error_no_dt name taf hdt⟩
      | some d =>
        refine ⟨"malformed segment", expand_error_of_bad_seg name taf d s e hdt hvt ?_ ?_⟩
        · have := floorHour_le s
          omega
        · rw [Bool.eq_false_iff]
          intro hcon
          have hw := (List.all_eq_true.mp hcon) seg hmem
          unfold segWellFormed at hw
          rw [hfrom] at hw
          simp at hw
  obtain ⟨msg, hmsg⟩ := herr
  refine ⟨⟨msg, hmsg⟩, ?_, ?_⟩
  · show (let acc := mainLoop now rest
      ((match mRes with
        | Except.ok m => [parse_metar now m name]
        | Except.error _ => []) ++ acc.1,
       (match expand_taf_hourly name taf with
        | Except.ok rs => rs
        | Except.error _ => []) ++ acc.2)).2 = (mainLoop now rest).2
    rw [hmsg]
    exact List.nil_append _
  · show (let acc := mainLoop now rest
      ((match mRes with
        | Except.ok m => [parse_metar now m name]
        | Except.error _ => []) ++ acc.1,
       (match expand_taf_hourly name taf with
        | Except.ok rs => rs
        | Except.error _ => []) ++ acc.2)).1 =
      (match mRes with
       | Except.ok m => [parse_metar now m name]
       | Except.error _ => []) ++ (mainLoop now rest).1
    rfl

/-- C7 witness: one airport whose fetched TAF lacks valid_time contributes
no TAF rows while leaving the rest of the accumulation untouched. -/
theorem C7_malformed_isolated_witness :
    (mainLoop "t0" [("NRT", Except.error "net down", Except.ok exDocNoValid)]).2 =
      (mainLoop "t0" ([] : List (String × Except String MetarObj × Except String TafDoc))).2 :=
  (C7_malformed_isolated "t0" "NRT" (Except.error "net down") exDocNoValid []
    (Or.inl rfl)).2.1

/-- C9: segments whose change type is neither BASE, FM nor TEMPO are
silently skipped: the selected base segment is always of base kind,
dropping all other-typed segments changes no hour's rows, and every row an
expansion returns is labelled BASE or TEMPO. -/
theorem C9_other_types_skipped (station : String) (endT t : Nat) (fs : List Segment)
    (taf : TafDoc) :
    (∀ e, selectBase endT t fs = some e → isBaseKind e = true) ∧
    (hourRowsAt station endT t
        (fs.filter (fun e => isBaseKind e || e.type == "TEMPO")) =
      hourRowsAt station endT t fs) ∧
    (∀ rows, expand_taf_hourly station taf = Except.ok rows →
      ∀ r ∈ rows, r.layer = "BASE" ∨ r.layer = "TEMPO") := by
  refine ⟨?_, ?_, ?_⟩
  · intro e he
    exact baseMatch_isBaseKind endT t e (selectBase_some_spec endT t fs e he).1
  · have hfb : (fs.filter (fun e => isBaseKind e || e.type == "TEMPO")).filter
        (baseMatch endT t) = fs.filter (baseMatch endT t) := by
      rw [List.filter_filter]
      apply List.filter_congr
      intro x _
      cases hb : baseMatch endT t x with
      | false => rfl
      | true =>
        have := baseMatch_isBaseKind endT t x hb
        rw [this]
        rfl
    have hft : (fs.filter (fun e => isBaseKind e || e.type == "TEMPO")).filter
        (tempoMatch t) = fs.filter (tempoMatch t) := by
      rw [List.filter_filter]
      apply List.filter_congr
      intro x _
      cases hb : tempoMatch t x with
      | false => rfl
      | true =>
        have hty : (x.type == "TEMPO") = true := by
          unfold tempoMatch at hb
          simp only [Bool.and_eq_true] at hb
          exact hb.1.1
        rw [hty, Bool.or_true]
        rfl
    unfold hourRowsAt
    have hsel : selectBase endT t (fs.filter (fun e => isBaseKind e || e.type == "TEMPO")) =
        selectBase endT t fs := by
      unfold selectBase
      rw [selectBaseAux_eq_pickLatest, selectBaseAux_eq_pickLatest, hfb]
    have htmp : tempoRowsAt station t (fs.filter (fun e => isBaseKind e || e.type == "TEMPO")) =
        tempoRowsAt station t fs := by
      rw [tempoRowsAt_eq, tempoRowsAt_eq, hft]
    rw [hsel, htmp]
  · intro rows hrows r hr
    rcases expand_ok_inv station taf rows hrows with hnil | ⟨s, e, _, hflat⟩
    · rw [hnil] at hr
      cases hr
    · rw [hflat] at hr
      obtain ⟨t', _, hrt⟩ := List.mem_flatMap.mp hr
      exact hourRowsAt_layer station e t' taf.forecast r hrt

/-- C9 witness: in the precedence fixture the segment actually selected is
of base kind. -/
theorem C9_other_types_skipped_witness : isBaseKind exSegFM = true :=
  (C9_other_types_skipped "NRT" 10800 3600 [exSegBase, exSegFM] exDocNoValid).1 exSegFM rfl

/-- C10: the expander requires the document's issue time to be present and
parseable, failing the whole expansion with an error when it is not, just
as a document missing valid_time fails; yet the parsed value never
influences the result: any two present issue times yield identical
output. -/
theorem C10_issue_time (station : String) (taf : TafDoc) :
    (taf.time_dt = none →
      expand_taf_hourly station taf = Except.error "unparseable issue time") ∧
    (∀ d1 d2, expand_taf_hourly station { taf with time_dt := some d1 } =
      expand_taf_hourly station { taf with time_dt := some d2 }) ∧
    (taf.valid_time = none → ∃ msg, expand_taf_hourly station taf = Except.error msg) := by
  refine ⟨expand_error_no_dt station taf, ?_, expand_error_no_valid station taf⟩
  intro d1 d2
  cases taf with
  | mk dt vt fc => rfl

/-- C10 witness: a document whose issue time is missing fails even though
its validity window and forecast are intact. -/
theorem C10_issue_time_witness :
    expand_taf_hourly "NRT" exDocNoDt = Except.error "unparseable issue time" :=
  (C10_issue_time "NRT" exDocNoDt).1 rfl

/-- C8: writing zero rows is a no-op; writing nonzero rows appends their
rendered lines after any existing content, prepending the header line
exactly when the file does not yet exist; hence writing the same rows twice
to a fresh path gives one header followed by two identical data blocks. -/
theorem C8_write_csv (file : Option (List String)) (content : List String)
    (rows : List (List (String × String))) (fieldnames : List String) :
    write_csv file [] fieldnames = file ∧
    (rows ≠ [] →
      write_csv none rows fieldnames =
          some (String.intercalate "," fieldnames :: rows.map (renderRow fieldnames)) ∧
        write_csv (some content) rows fieldnames =
          some (content ++ rows.map (renderRow fieldnames))) ∧
    (rows ≠ [] →
      write_csv (write_csv none rows fieldnames) rows fieldnames =
        some (String.intercalate "," fieldnames ::
          (rows.map (renderRow fieldnames) ++ rows.map (renderRow fieldnames)))) := by
  have hne : rows ≠ [] → rows.isEmpty = false := by
    intro h
    cases rows with
    | nil => exact absurd rfl h
    | cons a l => rfl
  refine ⟨?_, ?_, ?_⟩
  · cases file <;> rfl
  · intro h
    constructor
    · unfold write_csv
      rw [if_neg (by simp [hne h])]
    · unfold write_csv
      rw [if_neg (by simp [hne h])]
  · intro h
    have h1 : write_csv none rows fieldnames =
        some (String.intercalate "," fieldnames :: rows.map (renderRow fieldnames)) := by
      unfold write_csv
      rw [if_neg (by simp [hne h])]
    rw [h1]
    unfold write_csv
    rw [if_neg (by simp [hne h])]
    show some ((String.intercalate "," fieldnames :: rows.map (renderRow fieldnames)) ++
        rows.map (renderRow fieldnames)) =
      some (String.intercalate "," fieldnames ::
        (rows.map (renderRow fieldnames) ++ rows.map (renderRow fieldnames)))
    rw [List.cons_append]

/-- C8 witness: one concrete row written twice to a fresh path yields the
header once and the data line twice. -/
theorem C8_write_csv_witness :
    write_csv none [[("station", "NRT")]] ["station"] =
        some (String.intercalate "," ["station"] ::
          [[("station", "NRT")]].map (renderRow ["station"])) ∧
      write_csv (some ["old line"]) [[("station", "NRT")]] ["station"] =
        some (["old line"] ++ [[("station", "NRT")]].map (renderRow ["station"])) :=
  (C8_write_csv none ["old line"] [[("station", "NRT")]] ["station"]).2.1 (by decide)
